import Mathlib

/-!
Verification development for the plex-match-maker scan-and-reconcile core.

The definitions below are a shallow embedding of the Python source:
* `plex_client.py` — `is_guid_matched`, `_make_request` token guard, `connect`,
  `get_recent_media`, `match_with_agent`;
* `scheduler.py` — `scan_libraries`;
* `routes.py` — the manual-scan trigger;
* `models.py` — the row shapes (`LibraryConfig`, `MediaItem`, `ScanLog`).

Remote HTTP interactions are modelled as environment records: each request the
code performs is a field holding either the structured response or the error
(`ReqError`) that the corresponding Python call would raise. Time is carried as
integer epoch seconds, which is exactly what the source compares
(`added_at_timestamp >= cutoff_timestamp`).
-/

/-- Python's `s.startswith(p)` (used by `is_guid_matched`, plex_client.py:194):
`p` is a prefix of `s`, expressed on the underlying character lists. -/
def strStartswith (s p : String) : Bool := p.data.isPrefixOf s.data

/-- plex_client.py:190-197, the inner helper of `match_with_agent`.
An empty guid (`if not media_guid`) is unmatched; a guid starting with
`plex://` or `local://` is unmatched; anything else is matched. -/
def is_guid_matched (media_guid : String) : Bool :=
  if media_guid = "" then false
  else if strStartswith media_guid "plex://" || strStartswith media_guid "local://" then false
  else true

/-- Error raised by a remote request: `requests.exceptions.HTTPError` carrying a
status code (`.http`), or any other exception (`.other`), each with its text. -/
inductive ReqError where
  | http (status : Nat) (msg : String)
  | other (msg : String)
deriving DecidableEq, Repr

/-- plex_client.py:20-23: `_make_request` raises
`Exception("PLEX_TOKEN environment variable is required")` when the token is
empty, before issuing any request. -/
def make_request_token_guard (plex_token : String) : Except String Unit :=
  if plex_token = "" then Except.error "PLEX_TOKEN environment variable is required"
  else Except.ok ()

/-- plex_client.py:35-76: `connect` performs `_make_request('/')` inside
`try/except`; both `requests.exceptions.RequestException` and the generic
`Exception` handler return `False`. Hence a missing token (which makes
`_make_request` raise) and a failed handshake both yield `False`. -/
def connect (plex_token : String) (handshake_ok : Bool) : Bool :=
  if plex_token = "" then false else handshake_ok

/-- One raw media element of the `/library/sections/{key}/all` response
(plex_client.py:122-126): its attributes as the code reads them.
`addedAt` is the raw attribute (absent when `item.get('addedAt')` is `None`). -/
structure RawItem where
  key : String
  title : String
  type_ : String
  addedAt : Option String
  year : Option String
  summary : String
deriving DecidableEq, Repr

/-- The dict built for each in-window item (plex_client.py:141-149), with the
`addedAt` timestamp kept as the parsed epoch value. -/
structure MediaInfo where
  key : String
  title : String
  type_ : String
  addedAt : Int
  year : Option String
  summary : String
deriving DecidableEq, Repr

/-- plex_client.py:137-139: summaries longer than 200 characters are truncated
and suffixed with an ellipsis. -/
def truncate_summary (s : String) : String :=
  if 200 < s.length then (s.take 200).append "..." else s

/-- plex_client.py:111-113: `cutoff_timestamp = int((now_server - timedelta(hours)).timestamp())`.
With `nowEpoch` the integer epoch value of `now_server`, this is an exact
subtraction of `hours * 3600` seconds (epoch values are zone-independent). -/
def cutoff_timestamp (nowEpoch : Int) (hours : Nat) : Int :=
  nowEpoch - (hours : Int) * 3600

/-- Helper for `parse_int`: accumulate decimal digits, failing on any
non-digit character. -/
def parse_digits : List Char → Nat → Option Nat
  | [], acc => some acc
  | c :: cs, acc => if c.isDigit then parse_digits cs (acc * 10 + (c.toNat - 48)) else none

/-- Python's `int(added_at_str)` (plex_client.py:126) on the forms an `addedAt`
attribute takes: an optional minus sign followed by decimal digits; any other
string raises `ValueError`, modelled as `none`. -/
def parse_int (s : String) : Option Int :=
  match s.data with
  | [] => none
  | '-' :: rest => if rest = [] then none else (parse_digits rest 0).map (fun n => -(n : Int))
  | cs => (parse_digits cs 0).map (fun n => (n : Int))

/-- plex_client.py:123-153, one loop iteration: skip when `addedAt` is missing,
skip (with a warning) when `int(added_at_str)` fails to parse, keep the item
when `added_at_timestamp >= cutoff_timestamp`. -/
def to_media_info (cutoff : Int) (item : RawItem) : Option MediaInfo :=
  match item.addedAt with
  | none => none
  | some s =>
    match parse_int s with
    | none => none
    | some t =>
      if cutoff ≤ t then
        some { key := item.key, title := item.title, type_ := item.type_,
               addedAt := t, year := item.year, summary := truncate_summary item.summary }
      else none

/-- plex_client.py:156: `recent_media.sort(key=lambda x: x['addedAt'], reverse=True)`
— a stable sort, newest first (a stable sort under a total preorder has a
unique result, so any stable sorting algorithm embeds it faithfully). -/
def sortByAddedAtDesc (l : List MediaInfo) : List MediaInfo :=
  l.insertionSort (fun a b => b.addedAt ≤ a.addedAt)

/-- plex_client.py:103-168: `get_recent_media`. `connected` is the
`server_info`/`connect()` guard of lines 105-107. `fetched` is the outcome of
`_make_request(f'/library/sections/{key}/all')`: every handler (HTTP 404, other
HTTP errors, any other exception) logs and returns the empty list. -/
def get_recent_media (connected : Bool) (fetched : Except ReqError (List RawItem))
    (nowEpoch : Int) (hours : Nat) : List MediaInfo :=
  if !connected then []
  else
    match fetched with
    | Except.error _ => []
    | Except.ok items =>
      sortByAddedAtDesc (items.filterMap (to_media_info (cutoff_timestamp nowEpoch hours)))

/-- A `SearchResult` element of the `{media_key}/matches` response
(plex_client.py:217, 224-226): `guid` may be absent; `name` defaults to
`'Unknown'` at the use site. -/
structure Candidate where
  guid : Option String
  name : Option String
deriving DecidableEq, Repr

/-- The item found in the `{media_key}` lookup response whose `key` equals
`media_key` (plex_client.py:183-187): its title (`.get('title', 'Unknown')`)
and guid (`.get('guid', '')`). -/
structure LookupItem where
  title : String
  guid : String
deriving DecidableEq, Repr

/-- The remote behaviour observed by one `match_with_agent` call: the result of
each request the code may issue. `connected` is the `server_info`/`connect()`
guard (plex_client.py:173-175). `lookup` is `_make_request(media_key)` together
with the search for the item whose key matches (`none` when no element of the
response has the key). `refresh` is the `{media_key}/refresh` PUT, `matches`
the `{media_key}/matches` GET, `applyMatch` the `{media_key}/match` PUT. -/
structure MatchEnv where
  connected : Bool
  lookup : Except ReqError (Option LookupItem)
  refresh : Except ReqError Unit
  matches_ : Except ReqError (List Candidate)
  applyMatch : Except ReqError Unit
deriving Repr

/-- plex_client.py:251-261, the outer exception handlers of `match_with_agent`:
an `HTTPError` with status 404 names the library/media, any other `HTTPError`
reports it, and any other exception is wrapped by the generic handler. All
return `(False, message)`. -/
def request_error_result (library_key media_key agent_name : String) :
    ReqError → Bool × String
  | ReqError.http status m =>
      if status = 404 then
        (false, "Library " ++ library_key ++ " or media " ++ media_key ++ " not found")
      else
        (false, "HTTP error processing media " ++ media_key ++ ": " ++ m)
  | ReqError.other m =>
      (false, "Failed to process media " ++ media_key ++ " with agent " ++ agent_name ++ ": " ++ m)

/-- plex_client.py:243-249, the inner handler around the candidate-match block:
it catches only `HTTPError`; a 404 is reported as "no matches available" with
success `True`, any other `HTTPError` yields `(False, ...)`. A non-HTTP
exception propagates to the outer generic handler (plex_client.py:258-261). -/
def matches_error_result (media_key agent_name media_title : String) :
    ReqError → Bool × String
  | ReqError.http status m =>
      if status = 404 then
        (true, "No matches available for: " ++ media_title)
      else
        (false, "Error getting matches: " ++ m)
  | ReqError.other m =>
      (false, "Failed to process media " ++ media_key ++ " with agent " ++ agent_name ++ ": " ++ m)

/-- plex_client.py:171-261: `match_with_agent`. Looks the item up, classifies
its guid with `is_guid_matched` (an item absent from its own lookup response
leaves `media_guid = None`, classified unmatched), then either refreshes
(matched) or fetches candidates and applies the first one (unmatched). Every
error is converted to a `(Bool, message)` pair by the handlers above. -/
def match_with_agent (env : MatchEnv) (library_key media_key agent_name : String) :
    Bool × String :=
  if !env.connected then (false, "Not connected to Plex server")
  else
    match env.lookup with
    | Except.error e => request_error_result library_key media_key agent_name e
    | Except.ok found =>
      let media_title := match found with
        | some it => it.title
        | none => "Unknown"
      let is_matched := match found with
        | some it => is_guid_matched it.guid
        | none => false
      if is_matched then
        match env.refresh with
        | Except.ok _ => (true, "Refreshed matched media: " ++ media_title)
        | Except.error e => request_error_result library_key media_key agent_name e
      else
        match env.matches_ with
        | Except.error e => matches_error_result media_key agent_name media_title e
        | Except.ok [] => (true, "No matches available for: " ++ media_title)
        | Except.ok (first :: _) =>
          match first.guid with
          | some _ =>
            match env.applyMatch with
            | Except.ok _ =>
                (true, "Matched: " ++ media_title ++ " → " ++ (first.name.getD "Unknown"))
            | Except.error e => matches_error_result media_key agent_name media_title e
          | none => (true, "Match found but no guid available for: " ++ media_title)

/-- models.py:5-19: one library configuration row (the fields `scan_libraries`
reads). -/
structure LibraryConfig where
  id : Nat
  library_key : String
  library_name : String
  agent_name : String
  enabled : Bool
deriving DecidableEq, Repr

/-- models.py:21-36: one `media_items` row as created by `scan_libraries`
(scheduler.py:59-77). The pair `(library_config_id, plex_key)` is the dedup
key (`_library_media_uc`). -/
structure MediaItemRow where
  library_config_id : Nat
  plex_key : String
  title : String
  media_type : String
  added_at : Int
  agent_matched : String
  match_successful : Bool
  error_message : Option String
deriving DecidableEq, Repr

/-- models.py:38-50: one `scan_logs` row. `completed_at_set` records whether
`scan_completed_at` has been assigned. -/
structure ScanLog where
  status : String
  total_libraries : Nat
  total_media_found : Nat
  total_matched : Nat
  total_errors : Nat
  error_message : Option String
  completed_at_set : Bool
deriving DecidableEq, Repr

/-- The mutable state of one `scan_libraries` run: the `media_items` table
(committed rows plus the session's pending adds, which the autoflushing
`MediaItem.query` of scheduler.py:49-52 also sees) and the three counters of
scheduler.py:34-36. -/
structure ScanState where
  rows : List MediaItemRow
  total_media_found : Nat
  total_matched : Nat
  total_errors : Nat
deriving DecidableEq, Repr

/-- The environment of one scan: credentials and handshake outcome for
`connect`, the configured libraries, the current epoch time, and the remote's
response to each request the scan may issue (`fetch` per library key,
`matchEnvOf` per (library key, media key) for `match_with_agent`). -/
structure ScanEnv where
  plex_token : String
  handshake_ok : Bool
  configs : List LibraryConfig
  nowEpoch : Int
  fetch : String → Except ReqError (List RawItem)
  matchEnvOf : String → String → MatchEnv

/-- scheduler.py:49-52: `MediaItem.query.filter_by(library_config_id=...,
plex_key=...).first()` is non-empty. -/
def ledgerHas (rows : List MediaItemRow) (cid : Nat) (k : String) : Bool :=
  rows.any fun r => r.library_config_id == cid && r.plex_key == k

/-- The recent-media list the scan obtains for one library config
(scheduler.py:43, with `hours=24`; the client is connected at this point). -/
def recentOf (env : ScanEnv) (cfg : LibraryConfig) : List MediaInfo :=
  get_recent_media true (env.fetch cfg.library_key) env.nowEpoch 24

/-- scheduler.py:46-87, one iteration of the inner loop: skip the item if its
(config id, key) pair is already in the ledger; otherwise reconcile it via
`match_with_agent` (the client is connected, so its re-connect guard passes),
build the `MediaItem` row, and bump `total_matched` or `total_errors`. -/
def processMediaItem (env : ScanEnv) (cfg : LibraryConfig) (st : ScanState)
    (media : MediaInfo) : ScanState :=
  if ledgerHas st.rows cfg.id media.key then st
  else
    let res := match_with_agent
      { env.matchEnvOf cfg.library_key media.key with connected := true }
      cfg.library_key media.key cfg.agent_name
    let row : MediaItemRow :=
      { library_config_id := cfg.id, plex_key := media.key, title := media.title,
        media_type := media.type_, added_at := media.addedAt,
        agent_matched := cfg.agent_name, match_successful := res.1,
        error_message := if res.1 then none else some res.2 }
    { st with
      rows := st.rows ++ [row],
      total_matched := if res.1 then st.total_matched + 1 else st.total_matched,
      total_errors := if res.1 then st.total_errors else st.total_errors + 1 }

/-- scheduler.py:38-91, one iteration of the outer loop: fetch the library's
recent media, add its length to `total_media_found`, and process each item. -/
def processLibrary (env : ScanEnv) (st : ScanState) (cfg : LibraryConfig) : ScanState :=
  let recent := recentOf env cfg
  let st := { st with total_media_found := st.total_media_found + recent.length }
  recent.foldl (processMediaItem env cfg) st

/-- The outcome of one `scan_libraries` run: the finalized `ScanLog` and the
resulting `media_items` table. -/
structure ScanResult where
  log : ScanLog
  rows : List MediaItemRow
deriving DecidableEq, Repr

/-- scheduler.py:12-108: `scan_libraries`. A fresh `ScanLog` starts `running`
with zeroed counters (models.py defaults); if `connect()` fails it is finalized
`failed` with the connection message; otherwise the enabled configs are
scanned and the log is finalized `completed` with the aggregated counters. In
both branches `scan_completed_at` is set. -/
def scan_libraries (env : ScanEnv) (rows0 : List MediaItemRow) : ScanResult :=
  if !(connect env.plex_token env.handshake_ok) then
    { log := { status := "failed", total_libraries := 0, total_media_found := 0,
               total_matched := 0, total_errors := 0,
               error_message := some "Failed to connect to Plex server",
               completed_at_set := true },
      rows := rows0 }
  else
    let configs := env.configs.filter (fun c => c.enabled)
    let st := configs.foldl (processLibrary env)
      { rows := rows0, total_media_found := 0, total_matched := 0, total_errors := 0 }
    { log := { status := "completed", total_libraries := configs.length,
               total_media_found := st.total_media_found,
               total_matched := st.total_matched, total_errors := st.total_errors,
               error_message := none, completed_at_set := true },
      rows := st.rows }

/-- The two ways a scan gets triggered: the recurring APScheduler cron job
(scheduler.py:110-129) and the manual route (routes.py:158-174). -/
inductive TriggerKind where
  | recurring
  | manual
deriving DecidableEq, Repr

/-- How many scan executions are currently active, split by origin:
`recurringActive` counts running instances of the APScheduler job
(`add_job` in scheduler.py:115-121 keeps the default `max_instances=1`, so the
scheduler skips a firing while a previous instance of the same job still
runs); `manualActive` counts threads started by `routes.manual_scan`. -/
structure SchedulerState where
  recurringActive : Nat
  manualActive : Nat
deriving DecidableEq, Repr

/-- Total number of concurrently active `scan_libraries` executions. -/
def totalActive (st : SchedulerState) : Nat := st.recurringActive + st.manualActive

/-- What each trigger does on arrival. Recurring: APScheduler starts a new
instance only when none of this job's instances is running (default
`max_instances=1`); it does not see threads started elsewhere. Manual:
routes.py:163-167 unconditionally does `threading.Thread(target=scan_libraries);
thread.start()` — there is no lock, queue, or active-scan check anywhere in the
code. -/
def fireTrigger (st : SchedulerState) : TriggerKind → SchedulerState
  | TriggerKind.recurring =>
      if st.recurringActive = 0 then { st with recurringActive := 1 } else st
  | TriggerKind.manual => { st with manualActive := st.manualActive + 1 }

/-- A movie library configuration (id 1, remote key "1"). -/
def cfgMovies : LibraryConfig :=
  { id := 1, library_key := "1", library_name := "Movies",
    agent_name := "tv.plex.agents.movie", enabled := true }

/-- A show library configuration (id 2, remote key "2"). -/
def cfgShows : LibraryConfig :=
  { id := 2, library_key := "2", library_name := "Shows",
    agent_name := "tv.plex.agents.series", enabled := true }

/-- A music library configuration (id 3, remote key "3"). -/
def cfgMusic : LibraryConfig :=
  { id := 3, library_key := "3", library_name := "Music",
    agent_name := "tv.plex.agents.music", enabled := true }

/-- A remote movie added at epoch 1000000 (exactly on the test cutoff). -/
def rawMovie : RawItem :=
  { key := "/library/metadata/11", title := "Alpha", type_ := "movie",
    addedAt := some "1000000", year := some "2020", summary := "" }

/-- A remote track added at epoch 1000050 (inside the test window). -/
def rawTrack : RawItem :=
  { key := "/library/metadata/31", title := "Gamma", type_ := "track",
    addedAt := some "1000050", year := none, summary := "" }

/-- A remote state in which every lookup returns an externally matched item and
the refresh succeeds, so `match_with_agent` reports success. -/
def refreshOkMatchEnv : MatchEnv :=
  { connected := true,
    lookup := Except.ok (some { title := "Alpha", guid := "imdb://tt0000001" }),
    refresh := Except.ok (),
    matches_ := Except.ok [],
    applyMatch := Except.ok () }

/-- Test environment with three enabled libraries where fetching the second
library's items fails with a connectivity error while the other two return one
in-window item each. The window is 24 h before epoch 1086400, so the cutoff is
epoch 1000000. -/
def envThreeLibs : ScanEnv :=
  { plex_token := "token", handshake_ok := true,
    configs := [cfgMovies, cfgShows, cfgMusic],
    nowEpoch := 1086400,
    fetch := fun k =>
      if k = "1" then Except.ok [rawMovie]
      else if k = "2" then Except.error (ReqError.other "Connection refused")
      else if k = "3" then Except.ok [rawTrack]
      else Except.ok [],
    matchEnvOf := fun _ _ => refreshOkMatchEnv }

/-- `envThreeLibs` with the credential token missing. -/
def envMissingToken : ScanEnv := { envThreeLibs with plex_token := "" }

/-- `envThreeLibs` with a failing handshake (connection error). -/
def envConnDown : ScanEnv := { envThreeLibs with handshake_ok := false }

/-- A remote state where the item is unmatched (internal `plex://` guid) and
the `{media_key}/matches` request fails with HTTP 404. -/
def unmatched404Env : MatchEnv :=
  { connected := true,
    lookup := Except.ok (some { title := "Beta", guid := "plex://item" }),
    refresh := Except.ok (),
    matches_ := Except.error (ReqError.http 404 "Not Found"),
    applyMatch := Except.ok () }

lemma strStartswith_iff (s p : String) :
    strStartswith s p = true ↔ ∃ r, s.data = p.data ++ r := by
  unfold strStartswith
  rw [List.isPrefixOf_iff_prefix]
  constructor
  · rintro ⟨t, ht⟩
    exact ⟨t, ht.symm⟩
  · rintro ⟨t, ht⟩
    exact ⟨t, ht.symm⟩

/-- C1: match classification is a pure function of the identifier string: an
identifier classifies as Unmatched (`is_guid_matched = false`) iff it is empty
or starts with one of the remote server's internal namespace prefixes
`plex://`, `local://`; in particular `""`, `"plex://abc"`, `"local://x"` are
Unmatched and `"imdb://tt123"`, `"tvdb://55"` are Matched. -/
theorem is_guid_matched_classification :
    (∀ g : String, is_guid_matched g = false ↔
      (g = "" ∨ (∃ r, g.data = "plex://".data ++ r) ∨ (∃ r, g.data = "local://".data ++ r)))
    ∧ is_guid_matched "" = false
    ∧ is_guid_matched "plex://abc" = false
    ∧ is_guid_matched "local://x" = false
    ∧ is_guid_matched "imdb://tt123" = true
    ∧ is_guid_matched "tvdb://55" = true := by
  refine ⟨?_, by decide, by decide, by decide, by decide, by decide⟩
  intro g
  rw [← strStartswith_iff g "plex://", ← strStartswith_iff g "local://"]
  unfold is_guid_matched
  by_cases hg : g = ""
  · simp [hg]
  · rw [if_neg hg]
    by_cases hp : (strStartswith g "plex://" || strStartswith g "local://") = true
    · simp only [if_pos hp]
      rcases Bool.or_eq_true _ _ |>.mp hp with h | h <;> simp [hg, h]
    · rw [if_neg hp]
      simp only [Bool.or_eq_true] at hp
      push_neg at hp
      simp [hg, hp.1, hp.2]

/-- C9: every non-empty identifier that does not start with exactly `plex://`
or `local://` classifies as Matched (including `"abc"` and `"file:///x"`);
only the empty identifier and those two prefixes yield Unmatched. -/
theorem is_guid_matched_default_is_matched :
    (∀ g : String, g ≠ "" → strStartswith g "plex://" = false →
      strStartswith g "local://" = false → is_guid_matched g = true)
    ∧ (∀ g : String, is_guid_matched g = false →
      (g = "" ∨ strStartswith g "plex://" = true ∨ strStartswith g "local://" = true))
    ∧ is_guid_matched "abc" = true
    ∧ is_guid_matched "file:///x" = true := by
  refine ⟨?_, ?_, by decide, by decide⟩
  · intro g h1 h2 h3
    unfold is_guid_matched
    simp [h1, h2, h3]
  · intro g h
    by_cases hg : g = ""
    · exact Or.inl hg
    · unfold is_guid_matched at h
      rw [if_neg hg] at h
      by_cases hp : (strStartswith g "plex://" || strStartswith g "local://") = true
      · rcases Bool.or_eq_true _ _ |>.mp hp with h1 | h1
        · exact Or.inr (Or.inl h1)
        · exact Or.inr (Or.inr h1)
      · rw [if_neg hp] at h
        cases h

/-- Witness for C9 at the concrete identifier `"abc"`. -/
theorem is_guid_matched_default_is_matched_witness :
    is_guid_matched "abc" = true :=
  is_guid_matched_default_is_matched.1 "abc" (by decide) (by decide) (by decide)

/-- C2 (divergence witness): a manual trigger arriving while one scan is
already active starts a second concurrent `scan_libraries` execution —
`routes.manual_scan` spawns a thread unconditionally, so the code does not
keep at most one scan active. -/
theorem manual_trigger_runs_concurrently :
    totalActive (fireTrigger { recurringActive := 1, manualActive := 0 } TriggerKind.manual) = 2
    ∧ ¬ totalActive (fireTrigger { recurringActive := 1, manualActive := 0 } TriggerKind.manual) ≤ 1 := by
  decide

lemma mem_sortByAddedAtDesc (l : List MediaInfo) (m : MediaInfo) :
    m ∈ sortByAddedAtDesc l ↔ m ∈ l := by
  simp [sortByAddedAtDesc]

lemma to_media_info_addedAt (cutoff : Int) (item : RawItem) (m : MediaInfo)
    (h : to_media_info cutoff item = some m) : cutoff ≤ m.addedAt := by
  unfold to_media_info at h
  split at h
  · simp at h
  · split at h
    · simp at h
    · split at h
      · next hle =>
          injection h with h2
          subst h2
          exact hle
      · simp at h

/-- C6: the recency-window filter is boundary-inclusive on epoch seconds: a
remote item whose `addedAt` equals the cutoff (now minus `hours`, as an epoch
value) appears in `get_recent_media`, and every returned item has
`addedAt ≥ cutoff` — in particular no item one epoch-second before the cutoff
is returned. -/
theorem get_recent_media_boundary (items : List RawItem) (nowEpoch : Int) (hours : Nat)
    (r : RawItem) (s : String)
    (hmem : r ∈ items) (hadd : r.addedAt = some s)
    (hparse : parse_int s = some (cutoff_timestamp nowEpoch hours)) :
    (∃ m ∈ get_recent_media true (Except.ok items) nowEpoch hours,
        m.key = r.key ∧ m.addedAt = cutoff_timestamp nowEpoch hours)
    ∧ (∀ m ∈ get_recent_media true (Except.ok items) nowEpoch hours,
        cutoff_timestamp nowEpoch hours ≤ m.addedAt)
    ∧ (∀ m ∈ get_recent_media true (Except.ok items) nowEpoch hours,
        m.addedAt ≠ cutoff_timestamp nowEpoch hours - 1) := by
  have hres : get_recent_media true (Except.ok items) nowEpoch hours =
      sortByAddedAtDesc (items.filterMap (to_media_info (cutoff_timestamp nowEpoch hours))) := rfl
  have hbound : ∀ m ∈ get_recent_media true (Except.ok items) nowEpoch hours,
      cutoff_timestamp nowEpoch hours ≤ m.addedAt := by
    intro m hm
    rw [hres, mem_sortByAddedAtDesc, List.mem_filterMap] at hm
    obtain ⟨raw, _, hraw⟩ := hm
    exact to_media_info_addedAt _ _ _ hraw
  refine ⟨?_, hbound, ?_⟩
  · have hsome : to_media_info (cutoff_timestamp nowEpoch hours) r =
        some { key := r.key, title := r.title, type_ := r.type_,
               addedAt := cutoff_timestamp nowEpoch hours, year := r.year,
               summary := truncate_summary r.summary } := by
      simp [to_media_info, hadd, hparse]
    refine ⟨{ key := r.key, title := r.title, type_ := r.type_,
              addedAt := cutoff_timestamp nowEpoch hours, year := r.year,
              summary := truncate_summary r.summary }, ?_, rfl, rfl⟩
    rw [hres, mem_sortByAddedAtDesc, List.mem_filterMap]
    exact ⟨r, hmem, hsome⟩
  · intro m hm
    have := hbound m hm
    omega

/-- Witness for C6: with a 24-hour window ending at epoch 87400 the cutoff is
epoch 1000; an item added exactly at epoch 1000 is returned, and every
returned item is at or after the cutoff. -/
theorem get_recent_media_boundary_witness :
    (∃ m ∈ get_recent_media true (Except.ok
        [{ key := "/x", title := "X", type_ := "movie",
           addedAt := some "1000", year := none, summary := "" }]) 87400 24,
      m.key = "/x" ∧ m.addedAt = cutoff_timestamp 87400 24)
    ∧ (∀ m ∈ get_recent_media true (Except.ok
        [{ key := "/x", title := "X", type_ := "movie",
           addedAt := some "1000", year := none, summary := "" }]) 87400 24,
      cutoff_timestamp 87400 24 ≤ m.addedAt) := by
  have h := get_recent_media_boundary
    [{ key := "/x", title := "X", type_ := "movie",
       addedAt := some "1000", year := none, summary := "" }] 87400 24
    { key := "/x", title := "X", type_ := "movie",
      addedAt := some "1000", year := none, summary := "" } "1000"
    (by decide) rfl (by decide)
  exact ⟨h.1, h.2.1⟩

lemma ledgerHas_append_left (r1 r2 : List MediaItemRow) (cid : Nat) (k : String)
    (h : ledgerHas r1 cid k = true) : ledgerHas (r1 ++ r2) cid k = true := by
  simp only [ledgerHas, List.any_append, Bool.or_eq_true]
  exact Or.inl h

lemma processMediaItem_ledger_mono (env : ScanEnv) (cfg : LibraryConfig) (st : ScanState)
    (m : MediaInfo) (cid : Nat) (k : String) (h : ledgerHas st.rows cid k = true) :
    ledgerHas (processMediaItem env cfg st m).rows cid k = true := by
  unfold processMediaItem
  split
  · exact h
  · exact ledgerHas_append_left _ _ _ _ h

lemma processMediaItem_covers (env : ScanEnv) (cfg : LibraryConfig) (st : ScanState)
    (m : MediaInfo) :
    ledgerHas (processMediaItem env cfg st m).rows cfg.id m.key = true := by
  unfold processMediaItem
  split
  · next h => exact h
  · simp [ledgerHas, List.any_append]

lemma foldl_items_ledger_mono (env : ScanEnv) (cfg : LibraryConfig) :
    ∀ (ms : List MediaInfo) (st : ScanState) (cid : Nat) (k : String),
      ledgerHas st.rows cid k = true →
      ledgerHas (List.foldl (processMediaItem env cfg) st ms).rows cid k = true := by
  intro ms
  induction ms with
  | nil => intro st cid k h; simpa using h
  | cons a ms ih =>
    intro st cid k h
    simp only [List.foldl_cons]
    exact ih _ _ _ (processMediaItem_ledger_mono env cfg st a cid k h)

lemma foldl_items_covers (env : ScanEnv) (cfg : LibraryConfig) :
    ∀ (ms : List MediaInfo) (st : ScanState) (m : MediaInfo), m ∈ ms →
      ledgerHas (List.foldl (processMediaItem env cfg) st ms).rows cfg.id m.key = true := by
  intro ms
  induction ms with
  | nil => intro st m hm; cases hm
  | cons a ms ih =>
    intro st m hm
    simp only [List.foldl_cons]
    rcases List.mem_cons.mp hm with rfl | hm'
    · exact foldl_items_ledger_mono env cfg ms _ _ _ (processMediaItem_covers env cfg st m)
    · exact ih _ _ hm'

lemma processLibrary_ledger_mono (env : ScanEnv) (st : ScanState) (cfg : LibraryConfig)
    (cid : Nat) (k : String) (h : ledgerHas st.rows cid k = true) :
    ledgerHas (processLibrary env st cfg).rows cid k = true := by
  unfold processLibrary
  exact foldl_items_ledger_mono env cfg _ _ _ _ h

lemma processLibrary_covers (env : ScanEnv) (st : ScanState) (cfg : LibraryConfig) :
    ∀ m ∈ recentOf env cfg,
      ledgerHas (processLibrary env st cfg).rows cfg.id m.key = true := by
  intro m hm
  unfold processLibrary
  exact foldl_items_covers env cfg _ _ m hm

lemma foldl_configs_ledger_mono (env : ScanEnv) :
    ∀ (cfgs : List LibraryConfig) (st : ScanState) (cid : Nat) (k : String),
      ledgerHas st.rows cid k = true →
      ledgerHas (List.foldl (processLibrary env) st cfgs).rows cid k = true := by
  intro cfgs
  induction cfgs with
  | nil => intro st cid k h; simpa using h
  | cons c cfgs ih =>
    intro st cid k h
    simp only [List.foldl_cons]
    exact ih _ _ _ (processLibrary_ledger_mono env st c cid k h)

lemma foldl_configs_covers (env : ScanEnv) :
    ∀ (cfgs : List LibraryConfig) (st : ScanState) (cfg : LibraryConfig), cfg ∈ cfgs →
      ∀ m ∈ recentOf env cfg,
        ledgerHas (List.foldl (processLibrary env) st cfgs).rows cfg.id m.key = true := by
  intro cfgs
  induction cfgs with
  | nil => intro st cfg hcfg; cases hcfg
  | cons c cfgs ih =>
    intro st cfg hcfg m hm
    simp only [List.foldl_cons]
    rcases List.mem_cons.mp hcfg with rfl | hcfg'
    · exact foldl_configs_ledger_mono env cfgs _ _ _ (processLibrary_covers env st cfg m hm)
    · exact ih _ _ hcfg' m hm

lemma processMediaItem_skip (env : ScanEnv) (cfg : LibraryConfig) (st : ScanState)
    (m : MediaInfo) (h : ledgerHas st.rows cfg.id m.key = true) :
    processMediaItem env cfg st m = st := by
  unfold processMediaItem
  rw [if_pos h]

lemma foldl_items_skip (env : ScanEnv) (cfg : LibraryConfig) :
    ∀ (ms : List MediaInfo) (st : ScanState),
      (∀ m ∈ ms, ledgerHas st.rows cfg.id m.key = true) →
      List.foldl (processMediaItem env cfg) st ms = st := by
  intro ms
  induction ms with
  | nil => intro st _; rfl
  | cons a ms ih =>
    intro st h
    simp only [List.foldl_cons]
    rw [processMediaItem_skip env cfg st a (h a (List.mem_cons_self _ _))]
    exact ih st (fun m hm => h m (List.mem_cons_of_mem _ hm))

lemma processLibrary_skip (env : ScanEnv) (st : ScanState) (cfg : LibraryConfig)
    (h : ∀ m ∈ recentOf env cfg, ledgerHas st.rows cfg.id m.key = true) :
    processLibrary env st cfg =
      { st with total_media_found := st.total_media_found + (recentOf env cfg).length } := by
  unfold processLibrary
  exact foldl_items_skip env cfg _ _ h

lemma foldl_configs_skip (env : ScanEnv) :
    ∀ (cfgs : List LibraryConfig) (st : ScanState),
      (∀ cfg ∈ cfgs, ∀ m ∈ recentOf env cfg, ledgerHas st.rows cfg.id m.key = true) →
      List.foldl (processLibrary env) st cfgs =
        { st with total_media_found :=
            st.total_media_found + (cfgs.map (fun c => (recentOf env c).length)).sum } := by
  intro cfgs
  induction cfgs with
  | nil => intro st _; simp
  | cons c cfgs ih =>
    intro st h
    simp only [List.foldl_cons, List.map_cons, List.sum_cons]
    rw [processLibrary_skip env st c (h c (List.mem_cons_self _ _))]
    rw [ih { st with total_media_found := st.total_media_found + (recentOf env c).length }
      (fun cfg hcfg m hm => h cfg (List.mem_cons_of_mem _ hcfg) m hm)]
    rw [Nat.add_assoc]

lemma processMediaItem_found (env : ScanEnv) (cfg : LibraryConfig) (st : ScanState)
    (m : MediaInfo) :
    (processMediaItem env cfg st m).total_media_found = st.total_media_found := by
  unfold processMediaItem
  split
  · rfl
  · rfl

lemma foldl_items_found (env : ScanEnv) (cfg : LibraryConfig) :
    ∀ (ms : List MediaInfo) (st : ScanState),
      (List.foldl (processMediaItem env cfg) st ms).total_media_found = st.total_media_found := by
  intro ms
  induction ms with
  | nil => intro st; rfl
  | cons a ms ih =>
    intro st
    simp only [List.foldl_cons]
    rw [ih]
    exact processMediaItem_found env cfg st a

lemma processLibrary_found (env : ScanEnv) (st : ScanState) (cfg : LibraryConfig) :
    (processLibrary env st cfg).total_media_found =
      st.total_media_found + (recentOf env cfg).length := by
  unfold processLibrary
  rw [foldl_items_found]

lemma foldl_configs_found (env : ScanEnv) :
    ∀ (cfgs : List LibraryConfig) (st : ScanState),
      (List.foldl (processLibrary env) st cfgs).total_media_found =
        st.total_media_found + (cfgs.map (fun c => (recentOf env c).length)).sum := by
  intro cfgs
  induction cfgs with
  | nil => intro st; simp
  | cons c cfgs ih =>
    intro st
    simp only [List.foldl_cons, List.map_cons, List.sum_cons]
    rw [ih, processLibrary_found]
    omega

lemma scan_libraries_connect_false (env : ScanEnv) (rows0 : List MediaItemRow)
    (hc : connect env.plex_token env.handshake_ok = false) :
    scan_libraries env rows0 =
      { log := { status := "failed", total_libraries := 0, total_media_found := 0,
                 total_matched := 0, total_errors := 0,
                 error_message := some "Failed to connect to Plex server",
                 completed_at_set := true },
        rows := rows0 } := by
  unfold scan_libraries
  rw [hc]
  rfl

lemma scan_libraries_connect_true (env : ScanEnv) (rows0 : List MediaItemRow)
    (hc : connect env.plex_token env.handshake_ok = true) :
    scan_libraries env rows0 =
      (let configs := env.configs.filter (fun c => c.enabled)
       let st := configs.foldl (processLibrary env)
         { rows := rows0, total_media_found := 0, total_matched := 0, total_errors := 0 }
       { log := { status := "completed", total_libraries := configs.length,
                  total_media_found := st.total_media_found,
                  total_matched := st.total_matched, total_errors := st.total_errors,
                  error_message := none, completed_at_set := true },
         rows := st.rows }) := by
  unfold scan_libraries
  rw [hc]
  rfl

lemma scan_libraries_covers (env : ScanEnv) (rows0 : List MediaItemRow)
    (hc : connect env.plex_token env.handshake_ok = true) :
    ∀ cfg ∈ env.configs.filter (fun c => c.enabled), ∀ m ∈ recentOf env cfg,
      ledgerHas (scan_libraries env rows0).rows cfg.id m.key = true := by
  intro cfg hcfg m hm
  rw [scan_libraries_connect_true env rows0 hc]
  exact foldl_configs_covers env _ _ cfg hcfg m hm

lemma scan_libraries_rows_of_covered (env : ScanEnv) (rows1 : List MediaItemRow)
    (hc : connect env.plex_token env.handshake_ok = true)
    (h : ∀ cfg ∈ env.configs.filter (fun c => c.enabled), ∀ m ∈ recentOf env cfg,
        ledgerHas rows1 cfg.id m.key = true) :
    (scan_libraries env rows1).rows = rows1 := by
  rw [scan_libraries_connect_true env rows1 hc]
  show (List.foldl (processLibrary env)
      { rows := rows1, total_media_found := 0, total_matched := 0, total_errors := 0 }
      (env.configs.filter (fun c => c.enabled))).rows = rows1
  rw [foldl_configs_skip env _
    { rows := rows1, total_media_found := 0, total_matched := 0, total_errors := 0 } h]

lemma scan_libraries_log_of_covered (env : ScanEnv) (rows1 : List MediaItemRow)
    (hc : connect env.plex_token env.handshake_ok = true)
    (h : ∀ cfg ∈ env.configs.filter (fun c => c.enabled), ∀ m ∈ recentOf env cfg,
        ledgerHas rows1 cfg.id m.key = true) :
    (scan_libraries env rows1).log.total_media_found =
      ((env.configs.filter (fun c => c.enabled)).map (fun c => (recentOf env c).length)).sum
    ∧ (scan_libraries env rows1).log.total_matched = 0
    ∧ (scan_libraries env rows1).log.total_errors = 0 := by
  rw [scan_libraries_connect_true env rows1 hc]
  refine ⟨?_, ?_, ?_⟩
  · show (List.foldl (processLibrary env)
        { rows := rows1, total_media_found := 0, total_matched := 0, total_errors := 0 }
        (env.configs.filter (fun c => c.enabled))).total_media_found = _
    rw [foldl_configs_skip env _
      { rows := rows1, total_media_found := 0, total_matched := 0, total_errors := 0 } h]
    exact Nat.zero_add _
  · show (List.foldl (processLibrary env)
        { rows := rows1, total_media_found := 0, total_matched := 0, total_errors := 0 }
        (env.configs.filter (fun c => c.enabled))).total_matched = 0
    rw [foldl_configs_skip env _
      { rows := rows1, total_media_found := 0, total_matched := 0, total_errors := 0 } h]
  · show (List.foldl (processLibrary env)
        { rows := rows1, total_media_found := 0, total_matched := 0, total_errors := 0 }
        (env.configs.filter (fun c => c.enabled))).total_errors = 0
    rw [foldl_configs_skip env _
      { rows := rows1, total_media_found := 0, total_matched := 0, total_errors := 0 } h]

lemma scan_libraries_log_found (env : ScanEnv) (rows0 : List MediaItemRow)
    (hc : connect env.plex_token env.handshake_ok = true) :
    (scan_libraries env rows0).log.total_media_found =
      ((env.configs.filter (fun c => c.enabled)).map (fun c => (recentOf env c).length)).sum := by
  rw [scan_libraries_connect_true env rows0 hc]
  show (List.foldl (processLibrary env)
      { rows := rows0, total_media_found := 0, total_matched := 0, total_errors := 0 }
      (env.configs.filter (fun c => c.enabled))).total_media_found = _
  rw [foldl_configs_found]
  exact Nat.zero_add _

/-- C7: scan idempotence — running the scan twice against an unchanged remote
state inserts zero new `MediaItem` rows on the second run: every
(library config id, remote item key) pair recorded on the first run makes the
second run skip the item. -/
theorem scan_libraries_idempotent (env : ScanEnv) (rows0 : List MediaItemRow) :
    (scan_libraries env (scan_libraries env rows0).rows).rows =
      (scan_libraries env rows0).rows := by
  cases hc : connect env.plex_token env.handshake_ok with
  | true =>
    exact scan_libraries_rows_of_covered env _ hc (scan_libraries_covers env rows0 hc)
  | false =>
    rw [scan_libraries_connect_false env rows0 hc, scan_libraries_connect_false env _ hc]

/-- C10: `total_media_found` counts every in-window item, including ledger
hits that are skipped, while `total_matched`/`total_errors` count only newly
processed items: a repeat scan over an unchanged remote reports the same
`total_media_found` as the first (hence nonzero whenever the first was), zero
matched, zero errors, and inserts zero new rows. -/
theorem scan_repeat_counters (env : ScanEnv) (rows0 : List MediaItemRow) :
    (scan_libraries env (scan_libraries env rows0).rows).rows =
      (scan_libraries env rows0).rows
    ∧ (scan_libraries env (scan_libraries env rows0).rows).log.total_media_found =
      (scan_libraries env rows0).log.total_media_found
    ∧ (scan_libraries env (scan_libraries env rows0).rows).log.total_matched = 0
    ∧ (scan_libraries env (scan_libraries env rows0).rows).log.total_errors = 0
    ∧ (0 < (scan_libraries env rows0).log.total_media_found →
        0 < (scan_libraries env (scan_libraries env rows0).rows).log.total_media_found) := by
  cases hc : connect env.plex_token env.handshake_ok with
  | true =>
    have hcov := scan_libraries_covers env rows0 hc
    have hlog := scan_libraries_log_of_covered env _ hc hcov
    have hfound1 := scan_libraries_log_found env rows0 hc
    refine ⟨scan_libraries_rows_of_covered env _ hc hcov, ?_, hlog.2.1, hlog.2.2, ?_⟩
    · rw [hlog.1, hfound1]
    · intro h
      rw [hlog.1, ← hfound1]
      exact h
  | false =>
    rw [scan_libraries_connect_false env rows0 hc, scan_libraries_connect_false env _ hc]
    exact ⟨rfl, rfl, rfl, rfl, fun h => h⟩

/-- Witness for C10: in the three-library test environment the first scan finds
two in-window items; the repeat scan reports the same nonzero
`total_media_found` and adds no rows. -/
theorem scan_repeat_counters_witness :
    0 < (scan_libraries envThreeLibs []).log.total_media_found
    ∧ 0 < (scan_libraries envThreeLibs (scan_libraries envThreeLibs []).rows).log.total_media_found
    ∧ (scan_libraries envThreeLibs (scan_libraries envThreeLibs []).rows).rows =
      (scan_libraries envThreeLibs []).rows := by
  refine ⟨by decide, (scan_repeat_counters envThreeLibs []).2.2.2.2 (by decide),
    (scan_repeat_counters envThreeLibs []).1⟩

/-- C8: every scan run finalizes its scan record in a terminal state — either
`completed` (successful run) or `failed` (connection failure) — with the
completion time set; it is never left in status `running`. -/
theorem scan_log_terminal (env : ScanEnv) (rows0 : List MediaItemRow) :
    ((scan_libraries env rows0).log.status = "completed"
      ∨ (scan_libraries env rows0).log.status = "failed")
    ∧ (scan_libraries env rows0).log.completed_at_set = true
    ∧ (scan_libraries env rows0).log.status ≠ "running" := by
  cases hc : connect env.plex_token env.handshake_ok with
  | true =>
    rw [scan_libraries_connect_true env rows0 hc]
    refine ⟨Or.inl rfl, rfl, ?_⟩
    show ("completed" : String) ≠ "running"
    decide
  | false =>
    rw [scan_libraries_connect_false env rows0 hc]
    refine ⟨Or.inr rfl, rfl, ?_⟩
    show ("failed" : String) ≠ "running"
    decide

/-- C3 (counterexample): in the concrete three-library environment where the
second library's fetch raises a connectivity error, the scan completes and the
third library is still processed, but `total_errors = 0`, not `≥ 1`: the error
is swallowed inside `get_recent_media`, which returns an empty list, so no
error counter is bumped. -/
theorem scan_fetch_error_counterexample :
    envThreeLibs.fetch cfgShows.library_key = Except.error (ReqError.other "Connection refused")
    ∧ (scan_libraries envThreeLibs []).log.status = "completed"
    ∧ (scan_libraries envThreeLibs []).log.total_libraries = 3
    ∧ (∃ r ∈ (scan_libraries envThreeLibs []).rows, r.library_config_id = 3)
    ∧ (scan_libraries envThreeLibs []).log.total_errors = 0
    ∧ ¬ 1 ≤ (scan_libraries envThreeLibs []).log.total_errors := by
  refine ⟨rfl, by decide, by decide, by decide, by decide, by decide⟩

/-- C3 (amended): a library whose recent-media fetch fails contributes nothing
to the scan — neither rows nor errors — and does not stop later libraries: the
scan is identical to one where that library is simply empty, and its status is
`completed`. -/
theorem scan_isolates_failed_library (env : ScanEnv) (rows0 : List MediaItemRow)
    (c1 c2 c3 : LibraryConfig) (e : ReqError)
    (hconfigs : env.configs = [c1, c2, c3])
    (hen1 : c1.enabled = true) (hen2 : c2.enabled = true) (hen3 : c3.enabled = true)
    (hconn : connect env.plex_token env.handshake_ok = true)
    (hfail : env.fetch c2.library_key = Except.error e) :
    (scan_libraries env rows0).log.status = "completed"
    ∧ scan_libraries env rows0 =
        scan_libraries
          { env with fetch := fun k =>
              if k = c2.library_key then Except.ok [] else env.fetch k } rows0 := by
  constructor
  · rw [scan_libraries_connect_true env rows0 hconn]
  · have hrecent : ∀ cfg, recentOf
        { env with fetch := fun k =>
            if k = c2.library_key then Except.ok [] else env.fetch k } cfg =
        recentOf env cfg := by
      intro cfg
      unfold recentOf
      by_cases hk : cfg.library_key = c2.library_key
      · rw [hk, hfail]
        show get_recent_media true
          (if c2.library_key = c2.library_key then Except.ok [] else env.fetch c2.library_key)
          env.nowEpoch 24 = _
        rw [if_pos rfl]
        rfl
      · show get_recent_media true
          (if cfg.library_key = c2.library_key then Except.ok [] else env.fetch cfg.library_key)
          env.nowEpoch 24 = _
        rw [if_neg hk]
    have hproc : processLibrary
        { env with fetch := fun k =>
            if k = c2.library_key then Except.ok [] else env.fetch k } =
        processLibrary env := by
      funext st cfg
      unfold processLibrary
      rw [hrecent cfg]
      rfl
    have hconn' : connect
        ({ env with fetch := fun k =>
            if k = c2.library_key then Except.ok [] else env.fetch k } : ScanEnv).plex_token
        ({ env with fetch := fun k =>
            if k = c2.library_key then Except.ok [] else env.fetch k } : ScanEnv).handshake_ok
        = true := hconn
    rw [scan_libraries_connect_true env rows0 hconn,
      scan_libraries_connect_true _ rows0 hconn']
    dsimp only
    rw [hproc]

/-- Witness for C3 (amended) at the concrete three-library environment. -/
theorem scan_isolates_failed_library_witness :
    (scan_libraries envThreeLibs []).log.status = "completed"
    ∧ scan_libraries envThreeLibs [] =
        scan_libraries
          { envThreeLibs with fetch := fun k =>
              if k = cfgShows.library_key then Except.ok [] else envThreeLibs.fetch k } [] :=
  scan_isolates_failed_library envThreeLibs [] cfgMovies cfgShows cfgMusic
    (ReqError.other "Connection refused") rfl rfl rfl rfl (by decide) rfl

/-- C4 (counterexample): a scan run with a missing credential token produces
exactly the same `ScanRecord` as one with a connection failure — status
`failed`, message "Failed to connect to Plex server", no scan work — so the
missing token is not distinguished from a connection error at the scan level:
`connect()` catches the token exception and returns `False` like any
connectivity failure. -/
theorem missing_token_counterexample :
    envMissingToken.plex_token = ""
    ∧ envConnDown.plex_token = "token"
    ∧ scan_libraries envMissingToken [] = scan_libraries envConnDown []
    ∧ (scan_libraries envMissingToken []).log.status = "failed"
    ∧ (scan_libraries envMissingToken []).log.error_message =
        some "Failed to connect to Plex server" := by
  exact ⟨rfl, rfl, rfl, rfl, rfl⟩

/-- C4 (amended): a missing token makes `_make_request` raise its distinct
configuration exception, but `connect()` swallows it and returns `False`, so
`scan_libraries` handles it exactly like a connection error: the scan record
is finalized `failed` with the connection message before any library is
scanned, no rows are written, and the next trigger retries. -/
theorem missing_token_scan_behavior (env : ScanEnv) (rows0 : List MediaItemRow)
    (htoken : env.plex_token = "") :
    make_request_token_guard env.plex_token =
      Except.error "PLEX_TOKEN environment variable is required"
    ∧ connect env.plex_token env.handshake_ok = false
    ∧ (scan_libraries env rows0).log.status = "failed"
    ∧ (scan_libraries env rows0).log.error_message = some "Failed to connect to Plex server"
    ∧ (scan_libraries env rows0).rows = rows0
    ∧ scan_libraries env rows0 =
        scan_libraries { env with plex_token := "t", handshake_ok := false } rows0 := by
  have hc : connect env.plex_token env.handshake_ok = false := by
    rw [htoken]
    rfl
  have hc2 : connect
      ({ env with plex_token := "t", handshake_ok := false } : ScanEnv).plex_token
      ({ env with plex_token := "t", handshake_ok := false } : ScanEnv).handshake_ok = false := by
    rfl
  refine ⟨?_, hc, ?_, ?_, ?_, ?_⟩
  · rw [htoken]
    rfl
  · rw [scan_libraries_connect_false env rows0 hc]
  · rw [scan_libraries_connect_false env rows0 hc]
  · rw [scan_libraries_connect_false env rows0 hc]
  · rw [scan_libraries_connect_false env rows0 hc, scan_libraries_connect_false _ rows0 hc2]

/-- Witness for C4 (amended) at the concrete missing-token environment. -/
theorem missing_token_scan_behavior_witness :
    make_request_token_guard envMissingToken.plex_token =
      Except.error "PLEX_TOKEN environment variable is required"
    ∧ (scan_libraries envMissingToken []).log.status = "failed"
    ∧ (scan_libraries envMissingToken []).rows = [] :=
  ⟨(missing_token_scan_behavior envMissingToken [] rfl).1,
   (missing_token_scan_behavior envMissingToken [] rfl).2.2.1,
   (missing_token_scan_behavior envMissingToken [] rfl).2.2.2.2.1⟩

lemma request_error_result_fst (library_key media_key agent_name : String) (e : ReqError) :
    (request_error_result library_key media_key agent_name e).1 = false := by
  cases e with
  | http status m =>
    simp only [request_error_result]
    by_cases h : status = 404
    · rw [if_pos h]
    · rw [if_neg h]
  | other m => rfl

lemma matches_error_result_fst_of_ne (media_key agent_name media_title : String)
    (s : Nat) (m : String) (hs : s ≠ 404) :
    (matches_error_result media_key agent_name media_title (ReqError.http s m)).1 = false := by
  simp only [matches_error_result]
  rw [if_neg hs]

/-- C5 (counterexample): an unmatched item whose `{media_key}/matches` request
fails with HTTP 404 — a remote "not found" error encountered during
reconciliation — yields `(true, "No matches available for: ...")`, not
`(false, message)`: the inner handler maps a 404 on the candidate block to a
success outcome. -/
theorem match_with_agent_404_counterexample :
    unmatched404Env.matches_ = Except.error (ReqError.http 404 "Not Found")
    ∧ match_with_agent unmatched404Env "5" "/library/metadata/21" "TheMovieDB" =
        (true, "No matches available for: Beta")
    ∧ (match_with_agent unmatched404Env "5" "/library/metadata/21" "TheMovieDB").1 ≠ false := by
  refine ⟨rfl, rfl, by decide⟩

/-- C5 (amended): `match_with_agent` is total (never raises) and converts every
error to a `(Bool, message)` pair: a failure of the item lookup, a failure of
the refresh, a non-404 HTTP failure of the candidate block (while fetching or
while applying a candidate), and a non-HTTP failure of the candidate block
(again fetching or applying) all yield `(false, message)`; only a 404 inside
the candidate block — on the fetch or on the apply request — yields
`(true, "No matches available for: ...")`. -/
theorem match_with_agent_error_outcomes (env : MatchEnv) (lk mk ag : String) :
    (∀ e : ReqError, env.lookup = Except.error e →
        (match_with_agent env lk mk ag).1 = false)
    ∧ (∀ (it : LookupItem) (e : ReqError), env.lookup = Except.ok (some it) →
        is_guid_matched it.guid = true → env.refresh = Except.error e →
        (match_with_agent env lk mk ag).1 = false)
    ∧ (∀ (it : LookupItem) (s : Nat) (m : String), env.lookup = Except.ok (some it) →
        is_guid_matched it.guid = false → env.matches_ = Except.error (ReqError.http s m) →
        s ≠ 404 → (match_with_agent env lk mk ag).1 = false)
    ∧ (∀ (it : LookupItem) (m : String), env.lookup = Except.ok (some it) →
        is_guid_matched it.guid = false → env.matches_ = Except.error (ReqError.other m) →
        (match_with_agent env lk mk ag).1 = false)
    ∧ (∀ (it : LookupItem) (m : String), env.connected = true →
        env.lookup = Except.ok (some it) → is_guid_matched it.guid = false →
        env.matches_ = Except.error (ReqError.http 404 m) →
        match_with_agent env lk mk ag = (true, "No matches available for: " ++ it.title))
    ∧ (∀ (it : LookupItem) (first : Candidate) (rest : List Candidate) (g : String)
        (s : Nat) (m : String), env.lookup = Except.ok (some it) →
        is_guid_matched it.guid = false → env.matches_ = Except.ok (first :: rest) →
        first.guid = some g → env.applyMatch = Except.error (ReqError.http s m) →
        s ≠ 404 → (match_with_agent env lk mk ag).1 = false)
    ∧ (∀ (it : LookupItem) (first : Candidate) (rest : List Candidate) (g : String)
        (m : String), env.lookup = Except.ok (some it) →
        is_guid_matched it.guid = false → env.matches_ = Except.ok (first :: rest) →
        first.guid = some g → env.applyMatch = Except.error (ReqError.other m) →
        (match_with_agent env lk mk ag).1 = false)
    ∧ (∀ (it : LookupItem) (first : Candidate) (rest : List Candidate) (g : String)
        (m : String), env.connected = true → env.lookup = Except.ok (some it) →
        is_guid_matched it.guid = false → env.matches_ = Except.ok (first :: rest) →
        first.guid = some g → env.applyMatch = Except.error (ReqError.http 404 m) →
        match_with_agent env lk mk ag = (true, "No matches available for: " ++ it.title)) := by
  refine ⟨?_, ?_, ?_, ?_, ?_, ?_, ?_, ?_⟩
  · intro e he
    by_cases hc : env.connected
    · simp only [match_with_agent, hc, Bool.not_true, Bool.false_eq_true, if_false, he]
      exact request_error_result_fst lk mk ag e
    · simp [match_with_agent, hc]
  · intro it e hl hg hr
    by_cases hc : env.connected
    · simp only [match_with_agent, hc, Bool.not_true, Bool.false_eq_true, if_false, hl, hg,
        if_true, hr]
      exact request_error_result_fst lk mk ag e
    · simp [match_with_agent, hc]
  · intro it s m hl hg hm hs
    by_cases hc : env.connected
    · simp only [match_with_agent, hc, Bool.not_true, Bool.false_eq_true, if_false, hl, hg, hm]
      exact matches_error_result_fst_of_ne mk ag it.title s m hs
    · simp [match_with_agent, hc]
  · intro it m hl hg hm
    by_cases hc : env.connected
    · simp only [match_with_agent, hc, Bool.not_true, Bool.false_eq_true, if_false, hl, hg, hm]
      rfl
    · simp [match_with_agent, hc]
  · intro it m hc hl hg hm
    simp only [match_with_agent, hc, Bool.not_true, Bool.false_eq_true, if_false, hl, hg, hm]
    simp only [matches_error_result]
    rw [if_pos trivial]
  · intro it first rest g s m hl hg hm hguid ha hs
    by_cases hc : env.connected
    · simp only [match_with_agent, hc, Bool.not_true, Bool.false_eq_true, if_false, hl, hg,
        hm, hguid, ha]
      exact matches_error_result_fst_of_ne mk ag it.title s m hs
    · simp [match_with_agent, hc]
  · intro it first rest g m hl hg hm hguid ha
    by_cases hc : env.connected
    · simp only [match_with_agent, hc, Bool.not_true, Bool.false_eq_true, if_false, hl, hg,
        hm, hguid, ha]
      rfl
    · simp [match_with_agent, hc]
  · intro it first rest g m hc hl hg hm hguid ha
    simp only [match_with_agent, hc, Bool.not_true, Bool.false_eq_true, if_false, hl, hg,
      hm, hguid, ha]
    simp only [matches_error_result]
    rw [if_pos trivial]

/-- Witness for C5 (amended), covering both halves of the candidate block: a
non-404 HTTP failure while fetching candidate matches yields `false`; a 404
while applying the first candidate yields the `true` "no matches" outcome; a
non-HTTP failure while applying yields `false`. -/
theorem match_with_agent_error_outcomes_witness :
    (match_with_agent
      { connected := true,
        lookup := Except.ok (some { title := "Beta", guid := "plex://item" }),
        refresh := Except.ok (),
        matches_ := Except.error (ReqError.http 500 "Server Error"),
        applyMatch := Except.ok () } "5" "/library/metadata/21" "TheMovieDB").1 = false
    ∧ match_with_agent
      { connected := true,
        lookup := Except.ok (some { title := "Beta", guid := "plex://item" }),
        refresh := Except.ok (),
        matches_ := Except.ok [{ guid := some "tmdb://999", name := some "Foo" }],
        applyMatch := Except.error (ReqError.http 404 "Not Found") }
        "5" "/library/metadata/21" "TheMovieDB" = (true, "No matches available for: Beta")
    ∧ (match_with_agent
      { connected := true,
        lookup := Except.ok (some { title := "Beta", guid := "plex://item" }),
        refresh := Except.ok (),
        matches_ := Except.ok [{ guid := some "tmdb://999", name := some "Foo" }],
        applyMatch := Except.error (ReqError.other "connection reset") }
        "5" "/library/metadata/21" "TheMovieDB").1 = false :=
  ⟨(match_with_agent_error_outcomes
      { connected := true,
        lookup := Except.ok (some { title := "Beta", guid := "plex://item" }),
        refresh := Except.ok (),
        matches_ := Except.error (ReqError.http 500 "Server Error"),
        applyMatch := Except.ok () } "5" "/library/metadata/21" "TheMovieDB").2.2.1
      { title := "Beta", guid := "plex://item" } 500 "Server Error" rfl (by decide) rfl
      (by decide),
   (match_with_agent_error_outcomes
      { connected := true,
        lookup := Except.ok (some { title := "Beta", guid := "plex://item" }),
        refresh := Except.ok (),
        matches_ := Except.ok [{ guid := some "tmdb://999", name := some "Foo" }],
        applyMatch := Except.error (ReqError.http 404 "Not Found") }
        "5" "/library/metadata/21" "TheMovieDB").2.2.2.2.2.2.2
      { title := "Beta", guid := "plex://item" }
      { guid := some "tmdb://999", name := some "Foo" } [] "tmdb://999" "Not Found"
      rfl rfl (by decide) rfl rfl rfl,
   (match_with_agent_error_outcomes
      { connected := true,
        lookup := Except.ok (some { title := "Beta", guid := "plex://item" }),
        refresh := Except.ok (),
        matches_ := Except.ok [{ guid := some "tmdb://999", name := some "Foo" }],
        applyMatch := Except.error (ReqError.other "connection reset") }
        "5" "/library/metadata/21" "TheMovieDB").2.2.2.2.2.2.1
      { title := "Beta", guid := "plex://item" }
      { guid := some "tmdb://999", name := some "Foo" } [] "tmdb://999" "connection reset"
      rfl (by decide) rfl rfl rfl⟩

/-- Witness for C1: the iff applied at `"plex://abc"`, plus a Matched example. -/
theorem is_guid_matched_classification_witness :
    is_guid_matched "plex://abc" = false ∧ is_guid_matched "imdb://tt123" = true :=
  ⟨(is_guid_matched_classification.1 "plex://abc").mpr
      (Or.inr (Or.inl ⟨"abc".data, by decide⟩)),
   is_guid_matched_classification.2.2.2.2.1⟩

/-- Witness for C7 at the concrete three-library environment. -/
theorem scan_libraries_idempotent_witness :
    (scan_libraries envThreeLibs (scan_libraries envThreeLibs []).rows).rows =
      (scan_libraries envThreeLibs []).rows :=
  scan_libraries_idempotent envThreeLibs []

/-- Witness for C8 at the concrete three-library environment. -/
theorem scan_log_terminal_witness :
    ((scan_libraries envThreeLibs []).log.status = "completed"
      ∨ (scan_libraries envThreeLibs []).log.status = "failed")
    ∧ (scan_libraries envThreeLibs []).log.completed_at_set = true :=
  ⟨(scan_log_terminal envThreeLibs []).1, (scan_log_terminal envThreeLibs []).2.1⟩
